import Mathlib

/-!
Shallow embedding of the AWS cost-calculator backend
(`comprehensive_pricing.py`, `bulk_pricing.py`, `aws_pricing.py`, `app.py`,
`report_generator.py`) in static-table mode, together with proofs of the
frozen specification claims.

Modelling conventions:
* Python floats are modelled as rationals (`ℚ`).  All price literals in the
  source are exact decimals; `dec n d` denotes the decimal `n / 10^d`.
* Python dicts holding pricing data are modelled as association lists with
  string keys; `dict.get(k, default)` is `dget`.
* `str(x)` / `float(str(x))` round-trips on numbers are the identity and are
  left implicit.
* `round(x, n)` (Python 3 round-half-to-even) is `pyRound n x`.
-/

namespace AwsCalc

/-- Exact decimal literal: `dec n d` is the Python float literal with digits
`n` and `d` places after the point, e.g. `dec 116 4 = 0.0116`. -/
def dec (n : Int) (d : Nat) : ℚ := mkRat n (10 ^ d)

/-- Association-list lookup, the model of Python `dict[k]` access on string
keys (`find?` of the first matching key). -/
def alookup {α : Type} (xs : List (String × α)) (k : String) : Option α :=
  (xs.find? (fun kv => kv.1 == k)).map (·.2)

/-- The model of Python `dict.get(k, default)`. -/
def dget {α : Type} (xs : List (String × α)) (k : String) (d : α) : α :=
  (alookup xs k).getD d

/-- Character-list prefix test. -/
def startsWithChars : List Char → List Char → Bool
  | [], _ => true
  | _ :: _, [] => false
  | a :: as, b :: bs => a == b && startsWithChars as bs

/-- Character-list contiguous-occurrence test. -/
def containsChars (sub : List Char) : List Char → Bool
  | [] => sub.isEmpty
  | b :: rest => startsWithChars sub (b :: rest) || containsChars sub rest

/-- The model of Python's substring test `sub in s`: the characters of `sub`
occur contiguously in `s`. -/
def pyIn (sub s : String) : Bool := containsChars sub.toList s.toList

/-- Round a rational to the nearest integer, ties to even — the rounding mode
of Python 3's builtin `round`. -/
def roundHalfEven (x : ℚ) : Int :=
  let f : Int := ⌊x⌋
  let r : ℚ := x - (f : ℚ)
  if r < mkRat 1 2 then f
  else if mkRat 1 2 < r then f + 1
  else if f % 2 = 0 then f else f + 1

/-- The model of Python `round(x, nd)`. -/
def pyRound (nd : Nat) (x : ℚ) : ℚ :=
  (roundHalfEven (x * (10 : ℚ) ^ nd) : ℚ) / (10 : ℚ) ^ nd

/-- Region → instance type → operating system → hourly price. -/
abbrev EC2Table := List (String × List (String × List (String × ℚ)))

/-- Region → instance type → engine → deployment option → hourly price. -/
abbrev RDSTable := List (String × List (String × List (String × List (String × ℚ))))

/-- The hand-authored EC2 price table of `comprehensive_pricing.py`
(`EC2_PRICING` before `get_all_regions_pricing()` expands it). -/
def EC2_PRICING : EC2Table := [
  ("US East (N. Virginia)", [
    ("t2.nano", [("Linux", dec 58 4), ("Windows", dec 104 4)]),
    ("t2.micro", [("Linux", dec 116 4), ("Windows", dec 162 4)]),
    ("t2.small", [("Linux", dec 23 3), ("Windows", dec 32 3)]),
    ("t2.medium", [("Linux", dec 464 4), ("Windows", dec 648 4)]),
    ("t2.large", [("Linux", dec 928 4), ("Windows", dec 1296 4)]),
    ("t2.xlarge", [("Linux", dec 1856 4), ("Windows", dec 2592 4)]),
    ("t2.2xlarge", [("Linux", dec 3712 4), ("Windows", dec 5184 4)]),
    ("t3.nano", [("Linux", dec 52 4), ("Windows", dec 98 4)]),
    ("t3.micro", [("Linux", dec 104 4), ("Windows", dec 15 3)]),
    ("t3.small", [("Linux", dec 208 4), ("Windows", dec 298 4)]),
    ("t3.medium", [("Linux", dec 416 4), ("Windows", dec 596 4)]),
    ("t3.large", [("Linux", dec 832 4), ("Windows", dec 1192 4)]),
    ("t3.xlarge", [("Linux", dec 1664 4), ("Windows", dec 2384 4)]),
    ("t3.2xlarge", [("Linux", dec 3328 4), ("Windows", dec 4768 4)]),
    ("t3a.nano", [("Linux", dec 47 4), ("Windows", dec 88 4)]),
    ("t3a.micro", [("Linux", dec 94 4), ("Windows", dec 135 4)]),
    ("t3a.small", [("Linux", dec 188 4), ("Windows", dec 268 4)]),
    ("t3a.medium", [("Linux", dec 376 4), ("Windows", dec 536 4)]),
    ("t3a.large", [("Linux", dec 752 4), ("Windows", dec 1072 4)]),
    ("t3a.xlarge", [("Linux", dec 1504 4), ("Windows", dec 2144 4)]),
    ("t3a.2xlarge", [("Linux", dec 3008 4), ("Windows", dec 4288 4)]),
    ("m5.large", [("Linux", dec 96 3), ("Windows", dec 192 3)]),
    ("m5.xlarge", [("Linux", dec 192 3), ("Windows", dec 384 3)]),
    ("m5.2xlarge", [("Linux", dec 384 3), ("Windows", dec 576 3)]),
    ("m5.4xlarge", [("Linux", dec 768 3), ("Windows", dec 1152 3)]),
    ("m5.8xlarge", [("Linux", dec 536 3), ("Windows", dec 2304 3)]),
    ("m5.12xlarge", [("Linux", dec 2304 3), ("Windows", dec 3456 3)]),
    ("m5.16xlarge", [("Linux", dec 3072 3), ("Windows", dec 4608 3)]),
    ("m5.24xlarge", [("Linux", dec 4608 3), ("Windows", dec 6912 3)]),
    ("m5a.large", [("Linux", dec 86 3), ("Windows", dec 172 3)]),
    ("m5a.xlarge", [("Linux", dec 172 3), ("Windows", dec 344 3)]),
    ("m5a.2xlarge", [("Linux", dec 344 3), ("Windows", dec 516 3)]),
    ("m5a.4xlarge", [("Linux", dec 688 3), ("Windows", dec 1032 3)]),
    ("m5a.8xlarge", [("Linux", dec 1376 3), ("Windows", dec 2064 3)]),
    ("m5a.12xlarge", [("Linux", dec 2064 3), ("Windows", dec 3096 3)]),
    ("m5a.16xlarge", [("Linux", dec 2752 3), ("Windows", dec 4128 3)]),
    ("m5a.24xlarge", [("Linux", dec 4128 3), ("Windows", dec 6192 3)]),
    ("m6i.large", [("Linux", dec 96 3), ("Windows", dec 192 3)]),
    ("m6i.xlarge", [("Linux", dec 192 3), ("Windows", dec 384 3)]),
    ("m6i.2xlarge", [("Linux", dec 384 3), ("Windows", dec 576 3)]),
    ("m6i.4xlarge", [("Linux", dec 768 3), ("Windows", dec 1152 3)]),
    ("m6i.8xlarge", [("Linux", dec 1536 3), ("Windows", dec 2304 3)]),
    ("m6i.12xlarge", [("Linux", dec 2304 3), ("Windows", dec 3456 3)]),
    ("m6i.16xlarge", [("Linux", dec 3072 3), ("Windows", dec 4608 3)]),
    ("m6i.24xlarge", [("Linux", dec 4608 3), ("Windows", dec 6912 3)]),
    ("m6i.32xlarge", [("Linux", dec 6144 3), ("Windows", dec 9216 3)]),
    ("c5.large", [("Linux", dec 85 3), ("Windows", dec 187 3)]),
    ("c5.xlarge", [("Linux", dec 17 2), ("Windows", dec 374 3)]),
    ("c5.2xlarge", [("Linux", dec 34 2), ("Windows", dec 544 3)]),
    ("c5.4xlarge", [("Linux", dec 68 2), ("Windows", dec 1088 3)]),
    ("c5.9xlarge", [("Linux", dec 153 2), ("Windows", dec 2448 3)]),
    ("c5.12xlarge", [("Linux", dec 204 2), ("Windows", dec 3264 3)]),
    ("c5.18xlarge", [("Linux", dec 306 2), ("Windows", dec 4896 3)]),
    ("c5.24xlarge", [("Linux", dec 408 2), ("Windows", dec 6528 3)]),
    ("c5a.large", [("Linux", dec 77 3), ("Windows", dec 169 3)]),
    ("c5a.xlarge", [("Linux", dec 154 3), ("Windows", dec 338 3)]),
    ("c5a.2xlarge", [("Linux", dec 308 3), ("Windows", dec 676 3)]),
    ("c5a.4xlarge", [("Linux", dec 616 3), ("Windows", dec 1352 3)]),
    ("c5a.8xlarge", [("Linux", dec 1232 3), ("Windows", dec 2704 3)]),
    ("c5a.12xlarge", [("Linux", dec 1848 3), ("Windows", dec 4056 3)]),
    ("c5a.16xlarge", [("Linux", dec 2464 3), ("Windows", dec 5408 3)]),
    ("c5a.24xlarge", [("Linux", dec 3696 3), ("Windows", dec 8112 3)]),
    ("c6i.large", [("Linux", dec 85 3), ("Windows", dec 187 3)]),
    ("c6i.xlarge", [("Linux", dec 17 2), ("Windows", dec 374 3)]),
    ("c6i.2xlarge", [("Linux", dec 34 2), ("Windows", dec 544 3)]),
    ("c6i.4xlarge", [("Linux", dec 68 2), ("Windows", dec 1088 3)]),
    ("c6i.8xlarge", [("Linux", dec 136 2), ("Windows", dec 2176 3)]),
    ("c6i.12xlarge", [("Linux", dec 204 2), ("Windows", dec 3264 3)]),
    ("c6i.16xlarge", [("Linux", dec 272 2), ("Windows", dec 4352 3)]),
    ("c6i.24xlarge", [("Linux", dec 408 2), ("Windows", dec 6528 3)]),
    ("c6i.32xlarge", [("Linux", dec 544 2), ("Windows", dec 8704 3)]),
    ("r5.large", [("Linux", dec 126 3), ("Windows", dec 252 3)]),
    ("r5.xlarge", [("Linux", dec 252 3), ("Windows", dec 504 3)]),
    ("r5.2xlarge", [("Linux", dec 504 3), ("Windows", dec 756 3)]),
    ("r5.4xlarge", [("Linux", dec 1008 3), ("Windows", dec 1512 3)]),
    ("r5.8xlarge", [("Linux", dec 2016 3), ("Windows", dec 3024 3)]),
    ("r5.12xlarge", [("Linux", dec 3024 3), ("Windows", dec 4536 3)]),
    ("r5.16xlarge", [("Linux", dec 4032 3), ("Windows", dec 6048 3)]),
    ("r5.24xlarge", [("Linux", dec 6048 3), ("Windows", dec 9072 3)]),
    ("r5a.large", [("Linux", dec 113 3), ("Windows", dec 226 3)]),
    ("r5a.xlarge", [("Linux", dec 226 3), ("Windows", dec 452 3)]),
    ("r5a.2xlarge", [("Linux", dec 452 3), ("Windows", dec 678 3)]),
    ("r5a.4xlarge", [("Linux", dec 904 3), ("Windows", dec 1356 3)]),
    ("r5a.8xlarge", [("Linux", dec 1808 3), ("Windows", dec 2712 3)]),
    ("r5a.12xlarge", [("Linux", dec 2712 3), ("Windows", dec 4068 3)]),
    ("r5a.16xlarge", [("Linux", dec 3616 3), ("Windows", dec 5424 3)]),
    ("r5a.24xlarge", [("Linux", dec 5424 3), ("Windows", dec 8136 3)]),
    ("r6i.large", [("Linux", dec 126 3), ("Windows", dec 252 3)]),
    ("r6i.xlarge", [("Linux", dec 252 3), ("Windows", dec 504 3)]),
    ("r6i.2xlarge", [("Linux", dec 504 3), ("Windows", dec 756 3)]),
    ("r6i.4xlarge", [("Linux", dec 1008 3), ("Windows", dec 1512 3)]),
    ("r6i.8xlarge", [("Linux", dec 2016 3), ("Windows", dec 3024 3)]),
    ("r6i.12xlarge", [("Linux", dec 3024 3), ("Windows", dec 4536 3)]),
    ("r6i.16xlarge", [("Linux", dec 4032 3), ("Windows", dec 6048 3)]),
    ("r6i.24xlarge", [("Linux", dec 6048 3), ("Windows", dec 9072 3)]),
    ("r6i.32xlarge", [("Linux", dec 8064 3), ("Windows", dec 12096 3)]),
    ("x1.16xlarge", [("Linux", dec 6669 3), ("Windows", dec 9669 3)]),
    ("x1.32xlarge", [("Linux", dec 13338 3), ("Windows", dec 19338 3)]),
    ("x1e.xlarge", [("Linux", dec 834 3), ("Windows", dec 1334 3)]),
    ("x1e.2xlarge", [("Linux", dec 1668 3), ("Windows", dec 2668 3)]),
    ("x1e.4xlarge", [("Linux", dec 3336 3), ("Windows", dec 5336 3)]),
    ("x1e.8xlarge", [("Linux", dec 6672 3), ("Windows", dec 10672 3)]),
    ("x1e.16xlarge", [("Linux", dec 13344 3), ("Windows", dec 21344 3)]),
    ("x1e.32xlarge", [("Linux", dec 26688 3), ("Windows", dec 42688 3)]),
    ("i3.large", [("Linux", dec 156 3), ("Windows", dec 312 3)]),
    ("i3.xlarge", [("Linux", dec 312 3), ("Windows", dec 624 3)]),
    ("i3.2xlarge", [("Linux", dec 624 3), ("Windows", dec 936 3)]),
    ("i3.4xlarge", [("Linux", dec 1248 3), ("Windows", dec 1872 3)]),
    ("i3.8xlarge", [("Linux", dec 2496 3), ("Windows", dec 3744 3)]),
    ("i3.16xlarge", [("Linux", dec 4992 3), ("Windows", dec 7488 3)]),
    ("i4i.large", [("Linux", dec 156 3), ("Windows", dec 312 3)]),
    ("i4i.xlarge", [("Linux", dec 312 3), ("Windows", dec 624 3)]),
    ("i4i.2xlarge", [("Linux", dec 624 3), ("Windows", dec 936 3)]),
    ("i4i.4xlarge", [("Linux", dec 1248 3), ("Windows", dec 1872 3)]),
    ("i4i.8xlarge", [("Linux", dec 2496 3), ("Windows", dec 3744 3)]),
    ("i4i.16xlarge", [("Linux", dec 4992 3), ("Windows", dec 7488 3)]),
    ("i4i.32xlarge", [("Linux", dec 9984 3), ("Windows", dec 14976 3)]),
    ("d3.xlarge", [("Linux", dec 298 3), ("Windows", dec 596 3)]),
    ("d3.2xlarge", [("Linux", dec 596 3), ("Windows", dec 894 3)]),
    ("d3.4xlarge", [("Linux", dec 1192 3), ("Windows", dec 1788 3)]),
    ("d3.8xlarge", [("Linux", dec 2384 3), ("Windows", dec 3576 3)]),
    ("d3en.xlarge", [("Linux", dec 526 3), ("Windows", dec 789 3)]),
    ("d3en.2xlarge", [("Linux", dec 1052 3), ("Windows", dec 1578 3)]),
    ("d3en.4xlarge", [("Linux", dec 2104 3), ("Windows", dec 3156 3)]),
    ("d3en.6xlarge", [("Linux", dec 3156 3), ("Windows", dec 4734 3)]),
    ("d3en.8xlarge", [("Linux", dec 4208 3), ("Windows", dec 6312 3)]),
    ("d3en.12xlarge", [("Linux", dec 6312 3), ("Windows", dec 9468 3)]),
    ("p3.2xlarge", [("Linux", dec 306 2), ("Windows", dec 3594 3)]),
    ("p3.8xlarge", [("Linux", dec 1224 2), ("Windows", dec 13308 3)]),
    ("p3.16xlarge", [("Linux", dec 2448 2), ("Windows", dec 26616 3)]),
    ("p4d.24xlarge", [("Linux", dec 3277 2), ("Windows", dec 34906 3)]),
    ("g4dn.xlarge", [("Linux", dec 526 3), ("Windows", dec 786 3)]),
    ("g4dn.2xlarge", [("Linux", dec 752 3), ("Windows", dec 1012 3)]),
    ("g4dn.4xlarge", [("Linux", dec 1204 3), ("Windows", dec 1464 3)]),
    ("g4dn.8xlarge", [("Linux", dec 2176 3), ("Windows", dec 2696 3)]),
    ("g4dn.12xlarge", [("Linux", dec 3912 3), ("Windows", dec 4692 3)]),
    ("g4dn.16xlarge", [("Linux", dec 4352 3), ("Windows", dec 5132 3)]),
    ("g5.xlarge", [("Linux", dec 1006 3), ("Windows", dec 1266 3)]),
    ("g5.2xlarge", [("Linux", dec 1212 3), ("Windows", dec 1472 3)]),
    ("g5.4xlarge", [("Linux", dec 1624 3), ("Windows", dec 1884 3)]),
    ("g5.8xlarge", [("Linux", dec 2448 3), ("Windows", dec 2968 3)]),
    ("g5.12xlarge", [("Linux", dec 5672 3), ("Windows", dec 6452 3)]),
    ("g5.16xlarge", [("Linux", dec 4096 3), ("Windows", dec 4876 3)]),
    ("g5.24xlarge", [("Linux", dec 8144 3), ("Windows", dec 9184 3)]),
    ("g5.48xlarge", [("Linux", dec 16288 3), ("Windows", dec 18368 3)])]),
  ("US West (Oregon)", [
    ("t2.micro", [("Linux", dec 116 4), ("Windows", dec 162 4)]),
    ("t3.micro", [("Linux", dec 104 4), ("Windows", dec 15 3)]),
    ("m5.large", [("Linux", dec 96 3), ("Windows", dec 192 3)]),
    ("m5.xlarge", [("Linux", dec 192 3), ("Windows", dec 384 3)]),
    ("c5.large", [("Linux", dec 85 3), ("Windows", dec 187 3)]),
    ("c5.xlarge", [("Linux", dec 17 2), ("Windows", dec 374 3)]),
    ("r5.large", [("Linux", dec 126 3), ("Windows", dec 252 3)]),
    ("r5.xlarge", [("Linux", dec 252 3), ("Windows", dec 504 3)])]),
  ("EU (Ireland)", [
    ("t2.micro", [("Linux", dec 126 4), ("Windows", dec 172 4)]),
    ("t3.micro", [("Linux", dec 114 4), ("Windows", dec 164 4)]),
    ("m5.large", [("Linux", dec 107 3), ("Windows", dec 203 3)]),
    ("m5.xlarge", [("Linux", dec 214 3), ("Windows", dec 406 3)]),
    ("c5.large", [("Linux", dec 95 3), ("Windows", dec 197 3)]),
    ("c5.xlarge", [("Linux", dec 19 2), ("Windows", dec 394 3)]),
    ("r5.large", [("Linux", dec 141 3), ("Windows", dec 267 3)]),
    ("r5.xlarge", [("Linux", dec 282 3), ("Windows", dec 534 3)])]),
  ("EU (Frankfurt)", [
    ("t2.micro", [("Linux", dec 134 4), ("Windows", dec 18 3)]),
    ("t3.micro", [("Linux", dec 122 4), ("Windows", dec 172 4)]),
    ("m5.large", [("Linux", dec 114 3), ("Windows", dec 21 2)]),
    ("m5.xlarge", [("Linux", dec 228 3), ("Windows", dec 42 2)]),
    ("c5.large", [("Linux", dec 101 3), ("Windows", dec 203 3)]),
    ("c5.xlarge", [("Linux", dec 202 3), ("Windows", dec 406 3)]),
    ("r5.large", [("Linux", dec 15 2), ("Windows", dec 276 3)]),
    ("r5.xlarge", [("Linux", dec 3 1), ("Windows", dec 552 3)])]),
  ("Asia Pacific (Singapore)", [
    ("t2.micro", [("Linux", dec 132 4), ("Windows", dec 178 4)]),
    ("t3.micro", [("Linux", dec 12 3), ("Windows", dec 17 3)]),
    ("m5.large", [("Linux", dec 112 3), ("Windows", dec 208 3)]),
    ("m5.xlarge", [("Linux", dec 224 3), ("Windows", dec 416 3)]),
    ("c5.large", [("Linux", dec 99 3), ("Windows", dec 201 3)]),
    ("c5.xlarge", [("Linux", dec 198 3), ("Windows", dec 402 3)]),
    ("r5.large", [("Linux", dec 148 3), ("Windows", dec 274 3)]),
    ("r5.xlarge", [("Linux", dec 296 3), ("Windows", dec 548 3)])]),
  ("Asia Pacific (Tokyo)", [
    ("t2.micro", [("Linux", dec 152 4), ("Windows", dec 198 4)]),
    ("t3.micro", [("Linux", dec 14 3), ("Windows", dec 19 3)]),
    ("m5.large", [("Linux", dec 13 2), ("Windows", dec 226 3)]),
    ("m5.xlarge", [("Linux", dec 26 2), ("Windows", dec 452 3)]),
    ("c5.large", [("Linux", dec 116 3), ("Windows", dec 218 3)]),
    ("c5.xlarge", [("Linux", dec 232 3), ("Windows", dec 436 3)]),
    ("r5.large", [("Linux", dec 168 3), ("Windows", dec 294 3)]),
    ("r5.xlarge", [("Linux", dec 336 3), ("Windows", dec 588 3)])]),
  ("Asia Pacific (Sydney)", [
    ("t2.micro", [("Linux", dec 146 4), ("Windows", dec 192 4)]),
    ("t3.micro", [("Linux", dec 134 4), ("Windows", dec 184 4)]),
    ("m5.large", [("Linux", dec 124 3), ("Windows", dec 22 2)]),
    ("m5.xlarge", [("Linux", dec 248 3), ("Windows", dec 44 2)]),
    ("c5.large", [("Linux", dec 11 2), ("Windows", dec 212 3)]),
    ("c5.xlarge", [("Linux", dec 22 2), ("Windows", dec 424 3)]),
    ("r5.large", [("Linux", dec 162 3), ("Windows", dec 288 3)]),
    ("r5.xlarge", [("Linux", dec 324 3), ("Windows", dec 576 3)])])]

/-- `REGION_MULTIPLIERS` of `comprehensive_pricing.py`: regional pricing
multipliers relative to US East. -/
def REGION_MULTIPLIERS : List (String × ℚ) := [
  ("US East (N. Virginia)", dec 10 1),
  ("US East (Ohio)", dec 10 1),
  ("US West (N. California)", dec 108 2),
  ("US West (Oregon)", dec 10 1),
  ("Canada (Central)", dec 105 2),
  ("EU (Ireland)", dec 112 2),
  ("EU (London)", dec 113 2),
  ("EU (Paris)", dec 112 2),
  ("EU (Frankfurt)", dec 114 2),
  ("EU (Stockholm)", dec 110 2),
  ("EU (Milan)", dec 113 2),
  ("EU (Spain)", dec 112 2),
  ("EU (Zurich)", dec 115 2),
  ("Asia Pacific (Mumbai)", dec 115 2),
  ("Asia Pacific (Singapore)", dec 118 2),
  ("Asia Pacific (Sydney)", dec 120 2),
  ("Asia Pacific (Tokyo)", dec 124 2),
  ("Asia Pacific (Seoul)", dec 118 2),
  ("Asia Pacific (Osaka)", dec 124 2),
  ("Asia Pacific (Hong Kong)", dec 122 2),
  ("Asia Pacific (Jakarta)", dec 118 2),
  ("Asia Pacific (Melbourne)", dec 120 2),
  ("Middle East (Bahrain)", dec 120 2),
  ("Middle East (UAE)", dec 120 2),
  ("South America (São Paulo)", dec 135 2),
  ("Africa (Cape Town)", dec 128 2),
  ("AWS GovCloud (US-East)", dec 108 2),
  ("AWS GovCloud (US-West)", dec 108 2),
  ("China (Beijing)", dec 110 2),
  ("China (Ningxia)", dec 110 2)]

/-- `RDS_BASE_US_EAST` of `bulk_pricing.py`: instance type → engine →
deployment option → hourly price (US East base prices). -/
def RDS_BASE_US_EAST : List (String × List (String × List (String × ℚ))) := [
  ("db.t3.nano", [
    ("MySQL", [("Single-AZ", dec 8 3), ("Multi-AZ", dec 16 3)]),
    ("PostgreSQL", [("Single-AZ", dec 8 3), ("Multi-AZ", dec 16 3)]),
    ("MariaDB", [("Single-AZ", dec 8 3), ("Multi-AZ", dec 16 3)])]),
  ("db.t3.micro", [
    ("MySQL", [("Single-AZ", dec 17 3), ("Multi-AZ", dec 34 3)]),
    ("PostgreSQL", [("Single-AZ", dec 17 3), ("Multi-AZ", dec 34 3)]),
    ("MariaDB", [("Single-AZ", dec 17 3), ("Multi-AZ", dec 34 3)])]),
  ("db.t3.small", [
    ("MySQL", [("Single-AZ", dec 34 3), ("Multi-AZ", dec 68 3)]),
    ("PostgreSQL", [("Single-AZ", dec 34 3), ("Multi-AZ", dec 68 3)]),
    ("MariaDB", [("Single-AZ", dec 34 3), ("Multi-AZ", dec 68 3)])]),
  ("db.t3.medium", [
    ("MySQL", [("Single-AZ", dec 68 3), ("Multi-AZ", dec 136 3)]),
    ("PostgreSQL", [("Single-AZ", dec 68 3), ("Multi-AZ", dec 136 3)]),
    ("MariaDB", [("Single-AZ", dec 68 3), ("Multi-AZ", dec 136 3)])]),
  ("db.t3.large", [
    ("MySQL", [("Single-AZ", dec 136 3), ("Multi-AZ", dec 272 3)]),
    ("PostgreSQL", [("Single-AZ", dec 136 3), ("Multi-AZ", dec 272 3)]),
    ("MariaDB", [("Single-AZ", dec 136 3), ("Multi-AZ", dec 272 3)])]),
  ("db.m5.large", [
    ("MySQL", [("Single-AZ", dec 19 2), ("Multi-AZ", dec 38 2)]),
    ("PostgreSQL", [("Single-AZ", dec 19 2), ("Multi-AZ", dec 38 2)]),
    ("MariaDB", [("Single-AZ", dec 19 2), ("Multi-AZ", dec 38 2)])]),
  ("db.m5.xlarge", [
    ("MySQL", [("Single-AZ", dec 38 2), ("Multi-AZ", dec 76 2)]),
    ("PostgreSQL", [("Single-AZ", dec 38 2), ("Multi-AZ", dec 76 2)]),
    ("MariaDB", [("Single-AZ", dec 38 2), ("Multi-AZ", dec 76 2)])]),
  ("db.m5.2xlarge", [
    ("MySQL", [("Single-AZ", dec 76 2), ("Multi-AZ", dec 152 2)]),
    ("PostgreSQL", [("Single-AZ", dec 76 2), ("Multi-AZ", dec 152 2)]),
    ("MariaDB", [("Single-AZ", dec 76 2), ("Multi-AZ", dec 152 2)])]),
  ("db.r5.large", [
    ("MySQL", [("Single-AZ", dec 24 2), ("Multi-AZ", dec 48 2)]),
    ("PostgreSQL", [("Single-AZ", dec 24 2), ("Multi-AZ", dec 48 2)]),
    ("MariaDB", [("Single-AZ", dec 24 2), ("Multi-AZ", dec 48 2)])]),
  ("db.r5.xlarge", [
    ("MySQL", [("Single-AZ", dec 48 2), ("Multi-AZ", dec 96 2)]),
    ("PostgreSQL", [("Single-AZ", dec 48 2), ("Multi-AZ", dec 96 2)]),
    ("MariaDB", [("Single-AZ", dec 48 2), ("Multi-AZ", dec 96 2)])])]

/-- `S3_BASE` of `bulk_pricing.py`: storage class → per-GB-month price. -/
def S3_BASE : List (String × ℚ) :=
  [("General Purpose", dec 23 3), ("Infrequent Access", dec 125 4), ("Archive", dec 4 3)]

/-- `VPC_BASE` of `bulk_pricing.py`: component → hourly price. -/
def VPC_BASE : List (String × ℚ) := [("NatGateway", dec 45 3), ("VPN", dec 5 2)]

/-- `ALB_BASE` of `bulk_pricing.py`. -/
def ALB_BASE : ℚ := dec 225 4

/-- Route53 block of `FALLBACK_PRICING` in `bulk_pricing.py`. -/
def ROUTE53_PRICING : List (String × ℚ) :=
  [("HostedZone", dec 50 2), ("Queries", dec 40 2)]

/-- Key-presence test, the model of Python `k in dict`. -/
def hasKey {α : Type} (xs : List (String × α)) (k : String) : Bool :=
  (alookup xs k).isSome

/-- Apply a regional multiplier to an os → price map and round to 4 places,
as `get_all_regions_pricing` in `comprehensive_pricing.py` does. -/
def scaleOsPrices (m : ℚ) (osPrices : List (String × ℚ)) : List (String × ℚ) :=
  osPrices.map (fun op => (op.1, pyRound 4 (op.2 * m)))

/-- Expansion of one region: keep the instance types already present and add
every US East instance type that is missing, at the regional multiplier. -/
def expandEc2Region (m : ℚ) (existing : List (String × List (String × ℚ))) :
    List (String × List (String × ℚ)) :=
  let usEast := dget EC2_PRICING "US East (N. Virginia)" []
  existing ++ (usEast.filter (fun tp => !(hasKey existing tp.1))).map
    (fun tp => (tp.1, scaleOsPrices m tp.2))

/-- The EC2 table after `get_all_regions_pricing()` ran: every region of
`REGION_MULTIPLIERS` carries its original entries plus the full US East
catalogue at the regional multiplier.  (All seven literal regions of
`EC2_PRICING` occur in `REGION_MULTIPLIERS`, so as a key → value map this is
the mutated `EC2_PRICING` dict.) -/
def get_all_regions_pricing : EC2Table :=
  REGION_MULTIPLIERS.map
    (fun rm => (rm.1, expandEc2Region rm.2 (dget EC2_PRICING rm.1 [])))

/-- The generated RDS block of `FALLBACK_PRICING`: every region of
`REGION_MULTIPLIERS` carries `RDS_BASE_US_EAST` scaled by the multiplier and
rounded to 4 places. -/
def RDS_PRICING : RDSTable :=
  REGION_MULTIPLIERS.map (fun rm =>
    (rm.1, RDS_BASE_US_EAST.map (fun tp =>
      (tp.1, tp.2.map (fun ep =>
        (ep.1, [("Single-AZ", pyRound 4 (dget ep.2 "Single-AZ" 0 * rm.2)),
                ("Multi-AZ", pyRound 4 (dget ep.2 "Multi-AZ" 0 * rm.2))]))))))

/-- The generated S3 block of `FALLBACK_PRICING`. -/
def S3_PRICING : List (String × List (String × ℚ)) :=
  REGION_MULTIPLIERS.map (fun rm =>
    (rm.1, S3_BASE.map (fun cp => (cp.1, pyRound 4 (cp.2 * rm.2)))))

/-- The generated VPC block of `FALLBACK_PRICING`. -/
def VPC_PRICING : List (String × List (String × ℚ)) :=
  REGION_MULTIPLIERS.map (fun rm =>
    (rm.1, VPC_BASE.map (fun cp => (cp.1, pyRound 4 (cp.2 * rm.2)))))

/-- The generated ALB block of `FALLBACK_PRICING`. -/
def ALB_PRICING : List (String × ℚ) :=
  REGION_MULTIPLIERS.map (fun rm => (rm.1, pyRound 4 (ALB_BASE * rm.2)))

/-- The static pricing data of the scraper (`FALLBACK_PRICING` after all the
module-level generation loops in `bulk_pricing.py` ran).  This is
`self.pricing_data` of `LivePricingScraper` in static-table mode. -/
structure PricingData where
  EC2 : EC2Table
  RDS : RDSTable
  S3 : List (String × List (String × ℚ))
  VPC : List (String × List (String × ℚ))
  ALB : List (String × ℚ)
  Route53 : List (String × ℚ)

/-- The shipped static table. -/
def FALLBACK_PRICING : PricingData :=
  { EC2 := get_all_regions_pricing
    RDS := RDS_PRICING
    S3 := S3_PRICING
    VPC := VPC_PRICING
    ALB := ALB_PRICING
    Route53 := ROUTE53_PRICING }

/-- One entry of a `prices` list in a response record.  The source stores
`amount` as `str(x)` and re-parses it with `float`; that round-trip is the
identity on the value, so `amount` is kept as the number itself.  A key absent
from the source dict is `none`. -/
structure Price where
  amount : ℚ
  unit : String
  description : Option String := none
  monthly_cost : Option ℚ := none
deriving DecidableEq

/-- A response record (one element of the list returned by the `find_*` and
`format_*` functions).  Each field models the like-named dict key; `none`
means the key is absent.  The AWS-API keys `product` / `terms` never occur on
static-table records and are not modelled. -/
structure Product where
  service : Option String := none
  description : Option String := none
  instanceType : Option String := none
  location : Option String := none
  productFamily : Option String := none
  storageClass : Option String := none
  volumeType : Option String := none
  storageGB : Option ℚ := none
  quantity : Option Int := none
  vcpu : Option String := none
  memory : Option String := none
  storage : Option String := none
  networkPerformance : Option String := none
  prices : List Price := []
deriving DecidableEq

/-- Model of `str.count('x')`: occurrences of the character `x`. -/
def countX (s : String) : Nat := (s.toList.filter (fun c => c == 'x')).length

/-- `LivePricingScraper._get_instance_vcpu`. -/
def get_instance_vcpu (instance_type : String) : String :=
  if pyIn "nano" instance_type then "1"
  else if pyIn "micro" instance_type then "1-2"
  else if pyIn "small" instance_type then "1-2"
  else if pyIn "medium" instance_type then "2"
  else if pyIn "large" instance_type && !pyIn "xlarge" instance_type then "2"
  else if pyIn "xlarge" instance_type then toString (2 * (countX instance_type + 1))
  else "N/A"

/-- `LivePricingScraper._get_instance_memory`. -/
def get_instance_memory (instance_type : String) : String :=
  if pyIn "micro" instance_type then "1 GiB"
  else if pyIn "small" instance_type then "2 GiB"
  else if pyIn "medium" instance_type then "4 GiB"
  else if pyIn "large" instance_type && !pyIn "xlarge" instance_type then "8 GiB"
  else if pyIn "xlarge" instance_type then "16+ GiB"
  else "N/A"

/-- `LivePricingScraper._get_network_performance`. -/
def get_network_performance (instance_type : String) : String :=
  if instance_type.startsWith "t" then "Low to Moderate"
  else if instance_type.startsWith "c" then "High"
  else if instance_type.startsWith "r" then "High"
  else "Moderate"

/-- `LivePricingScraper.find_ec2_pricing`: chained `.get` lookups with
default `0`, retrying at the fixed default region when the price obtained is
`0`, then a single record with the hourly price. -/
def find_ec2_pricing (d : PricingData) (instance_type region os : String) :
    List Product :=
  let region_pricing := dget d.EC2 region []
  let instance_pricing := dget region_pricing instance_type []
  let hourly0 := dget instance_pricing os 0
  let hourly_price :=
    if hourly0 = 0 then
      dget (dget (dget d.EC2 "US East (N. Virginia)" []) instance_type []) os 0
    else hourly0
  [{ instanceType := some instance_type
     location := some region
     vcpu := some (get_instance_vcpu instance_type)
     memory := some (get_instance_memory instance_type)
     storage := some "EBS only"
     networkPerformance := some (get_network_performance instance_type)
     prices := [{ amount := hourly_price, unit := "Hrs"
                  description := some (instance_type ++ " " ++ os ++ " on-demand") }] }]

/-- `LivePricingScraper.find_rds_pricing`. -/
def find_rds_pricing (d : PricingData) (instance_type region engine deployment : String) :
    List Product :=
  let region_pricing := dget d.RDS region []
  let instance_pricing := dget region_pricing instance_type []
  let engine_pricing := dget instance_pricing engine []
  let hourly0 := dget engine_pricing deployment 0
  let hourly_price :=
    if hourly0 = 0 then
      dget (dget (dget (dget d.RDS "US East (N. Virginia)" []) instance_type []) engine [])
        deployment 0
    else hourly0
  let stripped := instance_type.replace "db." ""
  [{ instanceType := some instance_type
     location := some region
     vcpu := some (get_instance_vcpu stripped)
     memory := some (get_instance_memory stripped)
     storage := some "EBS"
     networkPerformance := some "Moderate"
     prices := [{ amount := hourly_price, unit := "Hrs"
                  description := some (instance_type ++ " " ++ engine ++ " " ++ deployment) }] }]

/-- `LivePricingScraper.find_s3_pricing`. -/
def find_s3_pricing (d : PricingData) (storage_class region : String) (storage_gb : ℚ) :
    List Product :=
  let region_pricing := dget d.S3 region []
  let price_per_gb := dget region_pricing storage_class (dec 23 3)
  let monthly_cost := price_per_gb * storage_gb
  [{ service := some "S3"
     storageClass := some storage_class
     location := some region
     storageGB := some storage_gb
     prices := [{ amount := price_per_gb, unit := "GB-Mo", monthly_cost := some monthly_cost }] }]

/-- `LivePricingScraper.find_vpc_pricing`. -/
def find_vpc_pricing (d : PricingData) (component region : String) (quantity : Int) :
    List Product :=
  let hourly_price := dget (dget d.VPC region []) component (dec 45 3)
  let monthly_cost := hourly_price * 730 * (quantity : ℚ)
  [{ service := some "VPC"
     productFamily := some component
     location := some region
     prices := [{ amount := hourly_price, unit := "Hrs", monthly_cost := some monthly_cost }] }]

/-- `LivePricingScraper.find_alb_pricing`. -/
def find_alb_pricing (d : PricingData) (region : String) (quantity : Int) : List Product :=
  let hourly_price := dget d.ALB region (dec 225 4)
  let monthly_cost := hourly_price * 730 * (quantity : ℚ)
  [{ service := some "ALB"
     productFamily := some "Load Balancer-Application"
     location := some region
     prices := [{ amount := hourly_price, unit := "Hrs", monthly_cost := some monthly_cost }] }]

/-- `LivePricingScraper.find_route53_pricing`. -/
def find_route53_pricing (d : PricingData) (component : String) (quantity : Int) :
    List Product :=
  let monthly_price := dget d.Route53 component (dec 50 2)
  let total_monthly := monthly_price * (quantity : ℚ)
  [{ service := some "Route53"
     productFamily := some component
     prices := [{ amount := monthly_price, unit := "Month", monthly_cost := some total_monthly }] }]

/-- `AWSPricingClient.format_s3_pricing_data`.  On a bulk-format record
(`service == 'S3'`) the storage size and the head price's `monthly_cost` are
rewritten; any other record goes through the AWS-API branch, which on a record
without `product` / `terms` keys yields all-default attributes and an empty
price list. -/
def format_s3_pricing_data (products : List Product) (storage_gb : ℚ) : List Product :=
  products.map (fun product =>
    if product.service == some "S3" then
      match product.prices with
      | [] => product
      | p0 :: rest =>
          { product with
            storageGB := some storage_gb
            prices := { p0 with monthly_cost := some (p0.amount * storage_gb) } :: rest }
    else
      { service := some "S3"
        storageClass := some "N/A"
        location := some "N/A"
        volumeType := some "N/A"
        storageGB := some storage_gb
        prices := [] })

/-- `AWSPricingClient.format_single_price`.  On a bulk-format record
(`service` one of `VPC`/`ALB`/`Route53`) the head price's `monthly_cost` is
recomputed from `amount` and `quantity` — times 730 when the unit contains
`Hrs` — and `quantity` is stored; any other record goes through the AWS-API
branch, which on a record without `product` / `terms` keys yields all-default
attributes and an empty price list. -/
def format_single_price (products : List Product) (service_name : String) (quantity : Int) :
    List Product :=
  products.map (fun product =>
    if [some "VPC", some "ALB", some "Route53"].contains product.service then
      match product.prices with
      | [] => product
      | p0 :: rest =>
          let mc : ℚ :=
            if pyIn "Hrs" p0.unit then p0.amount * 730 * (quantity : ℚ)
            else p0.amount * (quantity : ℚ)
          { product with
            prices := { p0 with monthly_cost := some mc } :: rest
            quantity := some quantity }
    else
      { service := some service_name
        description := some "N/A"
        location := some "N/A"
        productFamily := some "N/A"
        quantity := some quantity
        prices := [] })

/-- A JSON scalar arriving in a request body, as far as the numeric coercions
care: either a number or a string. -/
inductive PyVal where
  | num (q : ℚ)
  | str (s : String)
deriving DecidableEq

/-- Numeric value of a digit list (most significant first). -/
def digitsVal (cs : List Char) : Nat :=
  cs.foldl (fun a c => a * 10 + (c.toNat - 48)) 0

/-- Decimal-literal reading of a character list: optional sign, integer part,
optional point and fraction part.  `none` models Python `float` raising
`ValueError` on a non-numeric string. -/
def decChars (cs : List Char) : Option ℚ :=
  let signed : Bool × List Char :=
    match cs with
    | '-' :: r => (true, r)
    | '+' :: r => (false, r)
    | r => (false, r)
  let ip := signed.2.takeWhile Char.isDigit
  let rest := signed.2.dropWhile Char.isDigit
  let mag : Option ℚ :=
    match rest with
    | [] => if ip.isEmpty then none else some (digitsVal ip : ℚ)
    | '.' :: fp =>
        if fp.all Char.isDigit && !(ip.isEmpty && fp.isEmpty) then
          some ((digitsVal ip : ℚ) + mkRat (digitsVal fp) (10 ^ fp.length))
        else none
    | _ => none
  mag.map (fun q => if signed.1 then -q else q)

/-- Model of Python `float(v)` on a request value: numbers pass through,
strings are parsed as decimal literals, anything unparseable raises
(`none`). -/
def pyFloat : PyVal → Option ℚ
  | .num q => some q
  | .str s => decChars s.toList

/-- A cart item as built by `add_to_cart` in `app.py`. -/
structure CartItem where
  id : String
  service : String
  resourceType : String
  specifications : String
  region : String
  quantity : ℚ
  hourlyCost : ℚ
  monthlyCost : ℚ
deriving DecidableEq

/-- The JSON envelope of the cart endpoints: `success` plus the `cartCount`
field when the handler reports one.  A `False` success models the uniform
`{'success': False, 'error': ...}` (HTTP 500) envelope. -/
structure CartResponse where
  success : Bool
  cartCount : Option Nat := none
deriving DecidableEq

/-- The request body of `/api/cart/add`.  Field defaults model
`data.get(key, default)`; the two cost fields stay raw because the handler
passes them through `float`. -/
structure AddCartRequest where
  service : String
  resourceType : String
  specifications : String
  region : String
  quantity : ℚ := 1
  hourlyCost : PyVal := .num 0
  monthlyCost : PyVal := .num 0

/-- `add_to_cart` of `app.py`.  The fresh `uuid4` id is passed in explicitly.
When a cost field fails `float`, the `except` branch returns the error
envelope and the session cart is left unchanged. -/
def add_to_cart (cart : List CartItem) (freshId : String) (data : AddCartRequest) :
    CartResponse × List CartItem :=
  match pyFloat data.hourlyCost, pyFloat data.monthlyCost with
  | some h, some m =>
      let cart_item : CartItem :=
        { id := freshId
          service := data.service
          resourceType := data.resourceType
          specifications := data.specifications
          region := data.region
          quantity := data.quantity
          hourlyCost := h
          monthlyCost := m }
      let cart2 := cart ++ [cart_item]
      ({ success := true, cartCount := some cart2.length }, cart2)
  | _, _ => ({ success := false }, cart)

/-- `remove_from_cart` of `app.py`: keep the items whose id differs, succeed
unconditionally, report the new length. -/
def remove_from_cart (cart : List CartItem) (item_id : String) :
    CartResponse × List CartItem :=
  let cart2 := cart.filter (fun item => item.id != item_id)
  ({ success := true, cartCount := some cart2.length }, cart2)

/-- `clear_cart` of `app.py`. -/
def clear_cart (cart : List CartItem) : CartResponse × List CartItem :=
  ({ success := true }, [])

/-- The JSON envelope of `/api/cart/total`. -/
structure TotalResponse where
  success : Bool
  total : ℚ
  count : Nat
deriving DecidableEq

/-- `get_cart_total` of `app.py`: sum of `monthlyCost` over the cart, rounded
to 2 places. -/
def get_cart_total (cart : List CartItem) : TotalResponse :=
  let total := (cart.map (fun item => item.monthlyCost)).sum
  { success := true, total := pyRound 2 total, count := cart.length }

/-- The request body of `/api/pricing/s3`; defaults model `data.get`. -/
structure S3Request where
  storageGB : PyVal := .num 0
  storageClass : String := "General Purpose"
  region : String := "US East (N. Virginia)"

/-- The JSON envelope of the pricing endpoints. -/
structure PricingResponse where
  success : Bool
  data : List Product := []
  count : Nat := 0
deriving DecidableEq

/-- `get_s3_pricing` of `app.py` in static-table mode (the client method of
the same name delegates to `find_s3_pricing` with storage 0, and the handler
then formats with the requested size).  A `float` failure on `storageGB` is
caught by the `except` branch and returns the error envelope. -/
def get_s3_pricing (d : PricingData) (req : S3Request) : PricingResponse :=
  match pyFloat req.storageGB with
  | none => { success := false }
  | some storage_gb =>
      let products := find_s3_pricing d req.storageClass req.region 0
      let formatted := format_s3_pricing_data products storage_gb
      { success := true, data := formatted, count := formatted.length }

/-- `get_vpc_pricing` of `app.py` in static-table mode: the client delegates
to `find_vpc_pricing` with quantity 1 and the handler formats with the
requested quantity. -/
def get_vpc_pricing (d : PricingData) (component region : String) (quantity : Int) :
    PricingResponse :=
  let products := find_vpc_pricing d component region 1
  let formatted := format_single_price products "VPC" quantity
  { success := true, data := formatted, count := formatted.length }

/-- `get_alb_pricing` of `app.py` in static-table mode. -/
def get_alb_pricing (d : PricingData) (region : String) (quantity : Int) : PricingResponse :=
  let products := find_alb_pricing d region 1
  let formatted := format_single_price products "ALB" quantity
  { success := true, data := formatted, count := formatted.length }

/-- `get_route53_pricing` of `app.py` in static-table mode. -/
def get_route53_pricing (d : PricingData) (component : String) (quantity : Int) :
    PricingResponse :=
  let products := find_route53_pricing d component 1
  let formatted := format_single_price products "Route53" quantity
  { success := true, data := formatted, count := formatted.length }

/-- `get_ec2_pricing` of `app.py` in static-table mode: the bulk client's
records are returned as-is (`formatted_data = products`). -/
def get_ec2_pricing (d : PricingData) (instance_type region os : String) : PricingResponse :=
  let formatted := find_ec2_pricing d instance_type region os
  { success := true, data := formatted, count := formatted.length }

/-- One CSV cell.  String cells are kept verbatim; numeric cells carry the
number, whose f-string money formatting the source applies at emission (CSV
string formatting is out of the modelled core). -/
inductive Cell where
  | txt (s : String)
  | nat (n : Nat)
  | rat (q : ℚ)
deriving DecidableEq

/-- The itemized row `generate_csv_report` writes for one cart item:
service, resource, specs, region, quantity, hourly rate, monthly cost,
annual cost (monthly × 12). -/
def itemRow (item : CartItem) : List Cell :=
  [.txt item.service, .txt item.resourceType, .txt item.specifications, .txt item.region,
   .rat item.quantity, .rat item.hourlyCost, .rat item.monthlyCost,
   .rat (item.monthlyCost * 12)]

/-- The data rows of the RESOURCE BREAKDOWN section — one per cart item, in
cart order. -/
def resourceRows (cart : List CartItem) : List (List Cell) := cart.map itemRow

/-- First-occurrence list of distinct keys, the key set of the grouping dicts
(`service_costs` / `region_costs`) that the report loops build. -/
def distinctKeys (ks : List String) : List String :=
  ks.foldl (fun acc k => if k ∈ acc then acc else acc ++ [k]) []

/-- The model of Python `sorted` on distinct string keys. -/
def sortedStr (ks : List String) : List String := List.insertionSort (· ≤ ·) ks

/-- Keys of the service grouping dict. -/
def serviceKeys (cart : List CartItem) : List String :=
  distinctKeys (cart.map (fun item => item.service))

/-- Accumulated `service_costs[s]`: total monthly cost of the items of
service `s`. -/
def serviceMonthly (cart : List CartItem) (s : String) : ℚ :=
  ((cart.filter (fun item => item.service == s)).map (fun item => item.monthlyCost)).sum

/-- Accumulated `service_counts[s]`. -/
def serviceCount (cart : List CartItem) (s : String) : Nat :=
  (cart.filter (fun item => item.service == s)).length

/-- Data rows of the COST BY SERVICE section: one row per key of the service
grouping dict, in sorted key order. -/
def serviceRows (cart : List CartItem) : List (List Cell) :=
  (sortedStr (serviceKeys cart)).map (fun s =>
    [.txt s, .nat (serviceCount cart s), .rat (serviceMonthly cart s),
     .rat (serviceMonthly cart s * 12)])

/-- Keys of the region grouping dict. -/
def regionKeys (cart : List CartItem) : List String :=
  distinctKeys (cart.map (fun item => item.region))

/-- Accumulated `region_costs[r]`. -/
def regionMonthly (cart : List CartItem) (r : String) : ℚ :=
  ((cart.filter (fun item => item.region == r)).map (fun item => item.monthlyCost)).sum

/-- Accumulated `region_counts[r]`. -/
def regionCount (cart : List CartItem) (r : String) : Nat :=
  (cart.filter (fun item => item.region == r)).length

/-- Data rows of the COST BY REGION section. -/
def regionRows (cart : List CartItem) : List (List Cell) :=
  (sortedStr (regionKeys cart)).map (fun r =>
    [.txt r, .nat (regionCount cart r), .rat (regionMonthly cart r),
     .rat (regionMonthly cart r * 12)])

/-- The rows `generate_csv_report` writes before the itemized table: report
title, timestamp, item count, RESOURCE BREAKDOWN heading, column headers and
the separator row. -/
def reportHeaderRows (cart : List CartItem) (now : String) : List (List Cell) :=
  [[.txt "AWS COST ESTIMATE REPORT"],
   [.txt "Generated", .txt now],
   [.txt "Total Resources", .nat cart.length],
   [],
   [.txt "RESOURCE BREAKDOWN"],
   [],
   [.txt "Service", .txt "Resource", .txt "Specifications", .txt "Region", .txt "Qty",
    .txt "Hourly Rate", .txt "Monthly Cost", .txt "Annual Cost"],
   [.txt "---------------", .txt "--------------------",
    .txt "----------------------------------------", .txt "-------------------------",
    .txt "-----", .txt "------------", .txt "---------------", .txt "---------------"]]

/-- The COST SUMMARY block plus the COST BY SERVICE section header. -/
def costSummaryRows (total_cost : ℚ) : List (List Cell) :=
  [[],
   [.txt "COST SUMMARY"],
   [],
   [.txt "Period", .txt "Total Cost"],
   [.txt "--------------------", .txt "--------------------"],
   [.txt "Monthly", .rat total_cost],
   [.txt "Annual", .rat (total_cost * 12)],
   [],
   [.txt "COST BY SERVICE"],
   [],
   [.txt "Service", .txt "Resources", .txt "Monthly Cost", .txt "Annual Cost"],
   [.txt "---------------", .txt "------------", .txt "---------------",
    .txt "---------------"]]

/-- The COST BY REGION section header. -/
def regionHeaderRows : List (List Cell) :=
  [[],
   [.txt "COST BY REGION"],
   [],
   [.txt "Region", .txt "Resources", .txt "Monthly Cost", .txt "Annual Cost"],
   [.txt "------------------------------", .txt "------------", .txt "---------------",
    .txt "---------------"]]

/-- The IMPORTANT NOTES block and the footer. -/
def reportNotesRows : List (List Cell) :=
  [[],
   [.txt "IMPORTANT NOTES"],
   [],
   [.txt "1. Pricing Basis", .txt "On-Demand pricing (no reservations or savings plans)"],
   [.txt "2. Monthly Hours", .txt "730 hours (365 days / 12 months x 24 hours)"],
   [.txt "3. Currency", .txt "USD (United States Dollars)"],
   [.txt "4. Exclusions",
    .txt "Data transfer, requests, and additional service-specific charges"],
   [.txt "5. Accuracy", .txt "Estimates based on official AWS pricing as of January 2026"],
   [.txt "6. Actual Costs",
    .txt "May vary based on usage patterns, reserved instances, and volume discounts"],
   [],
   [.txt "Report generated by AWS Cost Calculator"],
   [.txt "For the most accurate pricing, please consult the official AWS Pricing Calculator"],
   [.txt "https://calculator.aws/"]]

/-- `generate_csv_report` of `report_generator.py` at row granularity.  The
generation timestamp is passed in as `now`. -/
def generate_csv_report (cart : List CartItem) (total_cost : ℚ) (now : String) :
    List (List Cell) :=
  reportHeaderRows cart now
  ++ resourceRows cart
  ++ costSummaryRows total_cost
  ++ serviceRows cart
  ++ regionHeaderRows
  ++ regionRows cart
  ++ reportNotesRows

/-- Observation helper: the EC2 table entry of a (region, type, os) selector,
`none` when any of the three keys is absent. -/
def ec2entry (t : EC2Table) (region typ os : String) : Option ℚ :=
  (alookup t region).bind (fun rp => (alookup rp typ).bind (fun ip => alookup ip os))

/-- Observation helper: the RDS table entry of a (region, type, engine,
deployment) selector. -/
def rdsentry (t : RDSTable) (region typ engine dep : String) : Option ℚ :=
  (alookup t region).bind (fun rp => (alookup rp typ).bind (fun ip =>
    (alookup ip engine).bind (fun ep => alookup ep dep)))

/-- Observation helper: the `amount` of the first price of the first record of
a response. -/
def headAmount (ps : List Product) : Option ℚ :=
  ps.head?.bind (fun p => p.prices.head?.map (fun pr => pr.amount))

/-- Observation helper: the `monthly_cost` of the first price of the first
record of a response. -/
def headMonthly (ps : List Product) : Option ℚ :=
  ps.head?.bind (fun p => p.prices.head?.bind (fun pr => pr.monthly_cost))

lemma roundHalfEven_ge_floor (x : ℚ) : ⌊x⌋ ≤ roundHalfEven x := by
  unfold roundHalfEven
  dsimp only
  split_ifs <;> omega

lemma roundHalfEven_intCast (f : Int) : roundHalfEven (f : ℚ) = f := by
  unfold roundHalfEven
  have h0 : ⌊(f : ℚ)⌋ = f := Int.floor_intCast f
  have hlt : (f : ℚ) - ((⌊(f : ℚ)⌋ : Int) : ℚ) < mkRat 1 2 := by
    rw [h0, sub_self, Rat.mkRat_eq_div]
    norm_num
  simp only [hlt, if_pos]
  exact h0

lemma pyRound_of_intCast (nd : Nat) (x : ℚ) (f : Int) (h : x * (10 : ℚ) ^ nd = (f : ℚ)) :
    pyRound nd x = (f : ℚ) / (10 : ℚ) ^ nd := by
  unfold pyRound
  rw [h, roundHalfEven_intCast]

lemma pyRound_pos {nd : Nat} {x : ℚ} (h : 1 ≤ x * (10 : ℚ) ^ nd) : 0 < pyRound nd x := by
  have h1 : (1 : Int) ≤ ⌊x * (10 : ℚ) ^ nd⌋ := Int.le_floor.mpr (by exact_mod_cast h)
  have h2 : (1 : Int) ≤ roundHalfEven (x * (10 : ℚ) ^ nd) :=
    le_trans h1 (roundHalfEven_ge_floor _)
  unfold pyRound
  apply div_pos _ (by positivity)
  have : (0 : ℚ) < ((roundHalfEven (x * (10 : ℚ) ^ nd) : Int) : ℚ) := by exact_mod_cast h2
  linarith

lemma scaled_price_pos {p m : ℚ} (hp : mkRat 1 1000 ≤ p) (hm : 1 ≤ m) :
    0 < pyRound 4 (p * m) := by
  apply pyRound_pos
  have hp' : (1 : ℚ) / 1000 ≤ p := by
    have h1000 : (mkRat 1 1000 : ℚ) = 1 / 1000 := by
      rw [Rat.mkRat_eq_div]; norm_num
    rwa [h1000] at hp
  have hp0 : (0 : ℚ) < p := lt_of_lt_of_le (by norm_num) hp'
  nlinarith

lemma alookup_mem {α : Type} {xs : List (String × α)} {k : String} {v : α}
    (h : alookup xs k = some v) : ∃ k', (k', v) ∈ xs := by
  unfold alookup at h
  cases hf : xs.find? (fun kv => kv.1 == k) with
  | none => rw [hf] at h; simp at h
  | some kv =>
      rw [hf] at h
      obtain ⟨k1, v1⟩ := kv
      have hv : v1 = v := by simpa using h
      subst hv
      exact ⟨k1, List.mem_of_find?_eq_some hf⟩

lemma mem_dget_nil {α : Type} {xs : List (String × List α)} {k : String} {a : α}
    (h : a ∈ dget xs k []) : ∃ kv ∈ xs, a ∈ kv.2 := by
  unfold dget at h
  cases hl : alookup xs k with
  | none => rw [hl] at h; simp at h
  | some l =>
      rw [hl] at h
      obtain ⟨k', hk⟩ := alookup_mem hl
      exact ⟨(k', l), hk, h⟩

lemma alookup_nil {α : Type} (k : String) : alookup ([] : List (String × α)) k = none := rfl

set_option maxRecDepth 40000 in
lemma EC2_base_ge :
    ∀ rp ∈ EC2_PRICING, ∀ tp ∈ rp.2, ∀ op ∈ tp.2, mkRat 1 1000 ≤ op.2 := by decide

lemma REGION_MULTIPLIERS_ge_one : ∀ rm ∈ REGION_MULTIPLIERS, 1 ≤ rm.2 := by decide

lemma RDS_base_ge :
    ∀ tp ∈ RDS_BASE_US_EAST, ∀ ep ∈ tp.2,
      mkRat 1 1000 ≤ dget ep.2 "Single-AZ" 0 ∧ mkRat 1 1000 ≤ dget ep.2 "Multi-AZ" 0 := by
  decide

lemma dget_chain_ec2 (t : EC2Table) (r ty os : String) :
    dget (dget (dget t r []) ty []) os 0 = (ec2entry t r ty os).getD 0 := by
  unfold ec2entry
  cases h1 : alookup t r with
  | none => simp [dget, h1, alookup_nil]
  | some rp =>
      cases h2 : alookup rp ty with
      | none => simp [dget, h1, h2, alookup_nil]
      | some ip => simp [dget, h1, h2]

lemma dget_chain_rds (t : RDSTable) (r ty e dep : String) :
    dget (dget (dget (dget t r []) ty []) e []) dep 0 = (rdsentry t r ty e dep).getD 0 := by
  unfold rdsentry
  cases h1 : alookup t r with
  | none => simp [dget, h1, alookup_nil]
  | some rp =>
      cases h2 : alookup rp ty with
      | none => simp [dget, h1, h2, alookup_nil]
      | some ip =>
          cases h3 : alookup ip e with
          | none => simp [dget, h1, h2, h3, alookup_nil]
          | some ep => simp [dget, h1, h2, h3]

lemma headAmount_find_ec2 (d : PricingData) (ty r os : String) :
    headAmount (find_ec2_pricing d ty r os) =
      some (if (ec2entry d.EC2 r ty os).getD 0 = 0
            then (ec2entry d.EC2 "US East (N. Virginia)" ty os).getD 0
            else (ec2entry d.EC2 r ty os).getD 0) := by
  unfold find_ec2_pricing headAmount
  dsimp only
  simp only [dget_chain_ec2]
  simp

lemma headAmount_find_rds (d : PricingData) (ty r e dep : String) :
    headAmount (find_rds_pricing d ty r e dep) =
      some (if (rdsentry d.RDS r ty e dep).getD 0 = 0
            then (rdsentry d.RDS "US East (N. Virginia)" ty e dep).getD 0
            else (rdsentry d.RDS r ty e dep).getD 0) := by
  unfold find_rds_pricing headAmount
  dsimp only
  simp only [dget_chain_rds]
  simp

lemma ec2Full_pos {r ty os : String} {p : ℚ}
    (h : ec2entry get_all_regions_pricing r ty os = some p) : 0 < p := by
  have h10 : (0 : ℚ) < mkRat 1 1000 := by
    rw [Rat.mkRat_eq_div]; norm_num
  unfold ec2entry at h
  cases h1 : alookup get_all_regions_pricing r with
  | none => rw [h1] at h; simp at h
  | some rp =>
  rw [h1] at h
  simp only [Option.some_bind] at h
  cases h2 : alookup rp ty with
  | none => rw [h2] at h; simp at h
  | some ip =>
  rw [h2] at h
  simp only [Option.some_bind] at h
  obtain ⟨rk, hrk⟩ := alookup_mem h1
  rw [get_all_regions_pricing, List.mem_map] at hrk
  obtain ⟨rm, hrm, hpair⟩ := hrk
  have hrp : rp = expandEc2Region rm.2 (dget EC2_PRICING rm.1 []) := by
    have := congrArg Prod.snd hpair
    simpa using this.symm
  obtain ⟨tk, htk⟩ := alookup_mem h2
  rw [hrp] at htk
  unfold expandEc2Region at htk
  rcases List.mem_append.mp htk with hex | hnew
  · -- the instance entry was already present in the literal table
    obtain ⟨kv, hkv, hin⟩ := mem_dget_nil hex
    obtain ⟨ok, hok⟩ := alookup_mem h
    have := EC2_base_ge kv hkv (tk, ip) hin (ok, p) hok
    exact lt_of_lt_of_le h10 this
  · -- the instance entry was generated from the US East catalogue
    rw [List.mem_map] at hnew
    obtain ⟨tp, htp, hpair2⟩ := hnew
    have hip : ip = scaleOsPrices rm.2 tp.2 := by
      have := congrArg Prod.snd hpair2
      simpa using this.symm
    obtain ⟨ok, hok⟩ := alookup_mem h
    rw [hip] at hok
    simp only [scaleOsPrices, List.mem_map] at hok
    obtain ⟨op, hop, hpair3⟩ := hok
    have hp : p = pyRound 4 (op.2 * rm.2) := by
      have := congrArg Prod.snd hpair3
      simpa using this.symm
    have htp' : tp ∈ dget EC2_PRICING "US East (N. Virginia)" [] :=
      (List.mem_filter.mp htp).1
    obtain ⟨kv, hkv, hin⟩ := mem_dget_nil htp'
    have hbase := EC2_base_ge kv hkv tp hin op hop
    have hmul := REGION_MULTIPLIERS_ge_one rm hrm
    rw [hp]
    exact scaled_price_pos hbase hmul

lemma rdsFull_pos {r ty e dep : String} {p : ℚ}
    (h : rdsentry RDS_PRICING r ty e dep = some p) : 0 < p := by
  unfold rdsentry at h
  cases h1 : alookup RDS_PRICING r with
  | none => rw [h1] at h; simp at h
  | some rp =>
  rw [h1] at h
  simp only [Option.some_bind] at h
  cases h2 : alookup rp ty with
  | none => rw [h2] at h; simp at h
  | some ip =>
  rw [h2] at h
  simp only [Option.some_bind] at h
  cases h3 : alookup ip e with
  | none => rw [h3] at h; simp at h
  | some ep =>
  rw [h3] at h
  simp only [Option.some_bind] at h
  obtain ⟨rk, hrk⟩ := alookup_mem h1
  rw [RDS_PRICING, List.mem_map] at hrk
  obtain ⟨rm, hrm, hpair⟩ := hrk
  have hrp : rp = RDS_BASE_US_EAST.map (fun tp =>
      (tp.1, tp.2.map (fun ep =>
        (ep.1, [("Single-AZ", pyRound 4 (dget ep.2 "Single-AZ" 0 * rm.2)),
                ("Multi-AZ", pyRound 4 (dget ep.2 "Multi-AZ" 0 * rm.2))])))) := by
    have := congrArg Prod.snd hpair
    simpa using this.symm
  obtain ⟨tk, htk⟩ := alookup_mem h2
  rw [hrp, List.mem_map] at htk
  obtain ⟨tp, htp, hpair2⟩ := htk
  have hip : ip = tp.2.map (fun ep =>
      (ep.1, [("Single-AZ", pyRound 4 (dget ep.2 "Single-AZ" 0 * rm.2)),
              ("Multi-AZ", pyRound 4 (dget ep.2 "Multi-AZ" 0 * rm.2))])) := by
    have := congrArg Prod.snd hpair2
    simpa using this.symm
  obtain ⟨ek, hek⟩ := alookup_mem h3
  rw [hip, List.mem_map] at hek
  obtain ⟨epair, hep, hpair3⟩ := hek
  have hepl : ep = [("Single-AZ", pyRound 4 (dget epair.2 "Single-AZ" 0 * rm.2)),
                    ("Multi-AZ", pyRound 4 (dget epair.2 "Multi-AZ" 0 * rm.2))] := by
    have := congrArg Prod.snd hpair3
    simpa using this.symm
  obtain ⟨dk, hdk⟩ := alookup_mem h
  rw [hepl] at hdk
  have hbase := RDS_base_ge tp htp epair hep
  have hmul := REGION_MULTIPLIERS_ge_one rm hrm
  simp only [List.mem_cons, List.not_mem_nil, or_false, Prod.mk.injEq] at hdk
  rcases hdk with ⟨-, hp⟩ | ⟨-, hp⟩
  · rw [hp]
    exact scaled_price_pos hbase.1 hmul
  · rw [hp]
    exact scaled_price_pos hbase.2 hmul

lemma pyIn_Hrs_Hrs : pyIn "Hrs" "Hrs" = true := by decide

lemma pyIn_Hrs_Month : pyIn "Hrs" "Month" = false := by decide

lemma dget_of_alookup {α : Type} {xs : List (String × α)} {k : String} {v : α} (d : α)
    (h : alookup xs k = some v) : dget xs k d = v := by
  simp [dget, h]

lemma pyRound_zero (nd : Nat) : pyRound nd (0 : ℚ) = 0 := by
  have h := pyRound_of_intCast nd 0 0 (by norm_num)
  simpa using h

lemma distinct_foldl_aux (l : List String) (acc : List String) (h : acc.Nodup) :
    (l.foldl (fun acc k => if k ∈ acc then acc else acc ++ [k]) acc).Nodup ∧
    (∀ x, x ∈ l.foldl (fun acc k => if k ∈ acc then acc else acc ++ [k]) acc ↔
      x ∈ acc ∨ x ∈ l) := by
  induction l generalizing acc with
  | nil => simp [h]
  | cons k rest ih =>
      simp only [List.foldl_cons]
      by_cases hk : k ∈ acc
      · rw [if_pos hk]
        obtain ⟨hn, hm⟩ := ih acc h
        refine ⟨hn, fun x => ?_⟩
        rw [hm]
        constructor
        · rintro (hx | hx)
          · exact Or.inl hx
          · exact Or.inr (List.mem_cons_of_mem _ hx)
        · rintro (hx | hx)
          · exact Or.inl hx
          · rcases List.mem_cons.mp hx with rfl | hx
            · exact Or.inl hk
            · exact Or.inr hx
      · rw [if_neg hk]
        have h2 : (acc ++ [k]).Nodup := by
          simp [List.nodup_append, h, hk]
        obtain ⟨hn, hm⟩ := ih (acc ++ [k]) h2
        refine ⟨hn, fun x => ?_⟩
        rw [hm]
        simp only [List.mem_append, List.mem_singleton, List.mem_cons]
        tauto

lemma distinctKeys_nodup (l : List String) : (distinctKeys l).Nodup :=
  (distinct_foldl_aux l [] (by simp)).1

lemma mem_distinctKeys (l : List String) (x : String) : x ∈ distinctKeys l ↔ x ∈ l := by
  have h := (distinct_foldl_aux l [] (by simp)).2 x
  simpa [distinctKeys] using h

lemma distinctKeys_length (l : List String) : (distinctKeys l).length = l.dedup.length := by
  apply List.Perm.length_eq
  rw [List.perm_ext_iff_of_nodup (distinctKeys_nodup l) l.nodup_dedup]
  intro x
  rw [mem_distinctKeys, List.mem_dedup]

/-- C4: for every id, cart remove reports success whether or not an item with
that id exists, and removing the same id twice leaves the same cart state and
the same cart size as a single removal (remove is idempotent). -/
theorem remove_idempotent : ∀ (cart : List CartItem) (item_id : String),
    (remove_from_cart cart item_id).1.success = true ∧
    (remove_from_cart ((remove_from_cart cart item_id).2) item_id).1.success = true ∧
    (remove_from_cart ((remove_from_cart cart item_id).2) item_id).2 =
      (remove_from_cart cart item_id).2 ∧
    ((remove_from_cart ((remove_from_cart cart item_id).2) item_id).2).length =
      ((remove_from_cart cart item_id).2).length := by
  intro cart item_id
  have hff : (remove_from_cart ((remove_from_cart cart item_id).2) item_id).2 =
      (remove_from_cart cart item_id).2 := by
    simp [remove_from_cart, List.filter_filter]
  exact ⟨rfl, rfl, hff, by rw [hff]⟩

/-- C5: the total endpoint returns the sum of `monthlyCost` over the current
items rounded to 2 places, the empty cart totals to 0, and clearing the cart
(after any adds) yields total 0. -/
theorem cart_total_policy : ∀ cart : List CartItem,
    (get_cart_total cart).success = true ∧
    (get_cart_total cart).total =
      pyRound 2 ((cart.map (fun item => item.monthlyCost)).sum) ∧
    (get_cart_total cart).count = cart.length ∧
    (get_cart_total []).total = 0 ∧
    (∀ cart2 : List CartItem, (get_cart_total (clear_cart cart2).2).total = 0) := by
  intro cart
  refine ⟨rfl, rfl, rfl, ?_, fun cart2 => ?_⟩
  · simp [get_cart_total, pyRound_zero]
  · simp [get_cart_total, clear_cart, pyRound_zero]

/-- C10: cart remove deletes exactly the items whose id matches (all of them),
keeps every other item in its original relative order (the result is the
order-preserving filter of the cart, a sublist of it), and the reported
`cartCount` is the length of the cart after the removal. -/
theorem remove_frame : ∀ (cart : List CartItem) (item_id : String),
    (remove_from_cart cart item_id).2 = cart.filter (fun item => item.id != item_id) ∧
    ((remove_from_cart cart item_id).2.all (fun item => item.id != item_id)) = true ∧
    List.Sublist ((remove_from_cart cart item_id).2) cart ∧
    (remove_from_cart cart item_id).1.cartCount =
      some (((remove_from_cart cart item_id).2).length) := by
  intro cart item_id
  refine ⟨rfl, ?_, List.filter_sublist cart, rfl⟩
  rw [List.all_eq_true]
  intro x hx
  have hx' : x ∈ cart.filter (fun item => item.id != item_id) := hx
  exact (List.mem_filter.mp hx').2

/-- C3 (amended): missing numeric fields are coerced to their defaults (0 for
`storageGB` and the cost fields, 1 for `quantity`) and the handler returns a
success response; a malformed (non-numeric) value does not crash the handler,
but it yields the uniform `success := false` error envelope rather than a
success response, with the cart left unchanged. -/
theorem numeric_defaults_and_malformed :
    (∀ (d : PricingData) (sc r : String),
        (get_s3_pricing d { storageClass := sc, region := r }).success = true ∧
        headMonthly ((get_s3_pricing d { storageClass := sc, region := r }).data) = some 0) ∧
    (∀ (cart : List CartItem) (freshId s rt sp rg : String),
        (add_to_cart cart freshId
            { service := s, resourceType := rt, specifications := sp, region := rg }).1.success
          = true ∧
        (add_to_cart cart freshId
            { service := s, resourceType := rt, specifications := sp, region := rg }).2 =
          cart ++ [{ id := freshId, service := s, resourceType := rt, specifications := sp,
                     region := rg, quantity := 1, hourlyCost := 0, monthlyCost := 0 }]) ∧
    (∀ (d : PricingData) (sc r : String) (v : PyVal), pyFloat v = none →
        (get_s3_pricing d { storageGB := v, storageClass := sc, region := r }).success
          = false) ∧
    (∀ (cart : List CartItem) (freshId s rt sp rg : String) (v : PyVal), pyFloat v = none →
        (add_to_cart cart freshId
            { service := s, resourceType := rt, specifications := sp, region := rg,
              hourlyCost := v }).1.success = false ∧
        (add_to_cart cart freshId
            { service := s, resourceType := rt, specifications := sp, region := rg,
              hourlyCost := v }).2 = cart) := by
  refine ⟨fun d sc r => ⟨?_, ?_⟩, fun cart freshId s rt sp rg => ⟨?_, ?_⟩,
          fun d sc r v h => ?_, fun cart freshId s rt sp rg v h => ⟨?_, ?_⟩⟩
  · simp [get_s3_pricing, pyFloat]
  · simp [get_s3_pricing, pyFloat, find_s3_pricing, format_s3_pricing_data, headMonthly]
  · simp [add_to_cart, pyFloat]
  · simp [add_to_cart, pyFloat]
  · simp [get_s3_pricing, h]
  · simp [add_to_cart, h]
  · simp [add_to_cart, h]

/-- C3 counterexample: a malformed numeric field (`storageGB = "abc"`, or a
malformed cost on cart add) makes the handler return the `success := false`
error envelope, not a success response as the claim states. -/
theorem malformed_input_error_envelope :
    (get_s3_pricing FALLBACK_PRICING { storageGB := .str "abc" }).success = false ∧
    (add_to_cart [] "id-1"
        { service := "EC2", resourceType := "t2.micro", specifications := "spec",
          region := "US East (N. Virginia)", hourlyCost := .str "oops" }).1.success = false := by
  constructor
  · rfl
  · rfl

/-- C3 witness. -/
theorem numeric_defaults_and_malformed_witness :
    (pyFloat (.str "abc") = none ∧
      (get_s3_pricing FALLBACK_PRICING
          { storageGB := .str "abc", storageClass := "General Purpose",
            region := "US East (N. Virginia)" }).success = false) ∧
    (pyFloat (.str "oops") = none ∧
      (add_to_cart [] "id-1"
          { service := "EC2", resourceType := "t2.micro", specifications := "spec",
            region := "US East (N. Virginia)", hourlyCost := .str "oops" }).1.success = false) := by
  have h1 : pyFloat (.str "abc") = none := by decide
  have h2 : pyFloat (.str "oops") = none := by decide
  exact ⟨⟨h1, numeric_defaults_and_malformed.2.2.1 FALLBACK_PRICING "General Purpose"
            "US East (N. Virginia)" _ h1⟩,
         ⟨h2, (numeric_defaults_and_malformed.2.2.2 [] "id-1" "EC2" "t2.micro" "spec"
            "US East (N. Virginia)" _ h2).1⟩⟩

/-- C6: the normalized S3 `monthly_cost` is the per-GB unit price times the
requested storage size, size 0 yields monthly cost 0 without error, and the
shipped table gives unit price 0.023 and monthly cost 2.30 for 100 GB of
General Purpose storage in US East. -/
theorem s3_monthly_cost :
    (∀ (d : PricingData) (sc r : String) (gb : ℚ),
        headAmount (format_s3_pricing_data (find_s3_pricing d sc r 0) gb) =
          some (dget (dget d.S3 r []) sc (dec 23 3)) ∧
        headMonthly (format_s3_pricing_data (find_s3_pricing d sc r 0) gb) =
          some (dget (dget d.S3 r []) sc (dec 23 3) * gb)) ∧
    (∀ (d : PricingData) (sc r : String),
        headMonthly (format_s3_pricing_data (find_s3_pricing d sc r 0) 0) = some 0) ∧
    headAmount ((get_s3_pricing FALLBACK_PRICING { storageGB := .num 100 }).data) =
      some (dec 23 3) ∧
    headMonthly ((get_s3_pricing FALLBACK_PRICING { storageGB := .num 100 }).data) =
      some (dec 23 1) := by
  have hgen : ∀ (d : PricingData) (sc r : String) (gb : ℚ),
      headAmount (format_s3_pricing_data (find_s3_pricing d sc r 0) gb) =
        some (dget (dget d.S3 r []) sc (dec 23 3)) ∧
      headMonthly (format_s3_pricing_data (find_s3_pricing d sc r 0) gb) =
        some (dget (dget d.S3 r []) sc (dec 23 3) * gb) := by
    intro d sc r gb
    constructor <;>
      simp [find_s3_pricing, format_s3_pricing_data, headAmount, headMonthly]
  have husea : dget (dget FALLBACK_PRICING.S3 "US East (N. Virginia)" []) "General Purpose"
      (dec 23 3) = pyRound 4 (dec 23 3 * dec 10 1) := rfl
  have hval : pyRound 4 (dec 23 3 * dec 10 1) = dec 23 3 := by
    have h230 : dec 23 3 * dec 10 1 * (10 : ℚ) ^ (4 : Nat) = ((230 : Int) : ℚ) := by
      norm_num [dec, Rat.mkRat_eq_div]
    rw [pyRound_of_intCast 4 (dec 23 3 * dec 10 1) 230 h230]
    norm_num [dec, Rat.mkRat_eq_div]
  refine ⟨hgen, fun d sc r => ?_, ?_, ?_⟩
  · rw [(hgen d sc r 0).2, mul_zero]
  · have h := (hgen FALLBACK_PRICING "General Purpose" "US East (N. Virginia)" 100).1
    calc headAmount ((get_s3_pricing FALLBACK_PRICING { storageGB := .num 100 }).data)
        = some (dget (dget FALLBACK_PRICING.S3 "US East (N. Virginia)" []) "General Purpose"
            (dec 23 3)) := h
      _ = some (dec 23 3) := by rw [husea, hval]
  · have h := (hgen FALLBACK_PRICING "General Purpose" "US East (N. Virginia)" 100).2
    calc headMonthly ((get_s3_pricing FALLBACK_PRICING { storageGB := .num 100 }).data)
        = some (dget (dget FALLBACK_PRICING.S3 "US East (N. Virginia)" []) "General Purpose"
            (dec 23 3) * 100) := h
      _ = some (dec 23 1) := by
          rw [husea, hval]
          norm_num [dec, Rat.mkRat_eq_div]

/-- C7: Route53 pricing is flat-monthly — `monthly_cost` is the unit price
times the quantity with no x730 factor (`'Hrs' in 'Month'` is false), and
unit price 0.50 with quantity 3 yields 1.50. -/
theorem route53_flat_monthly :
    (∀ (d : PricingData) (comp : String) (q : Int),
        headAmount ((get_route53_pricing d comp q).data) =
          some (dget d.Route53 comp (dec 50 2)) ∧
        headMonthly ((get_route53_pricing d comp q).data) =
          some (dget d.Route53 comp (dec 50 2) * (q : ℚ))) ∧
    pyIn "Hrs" "Month" = false ∧
    headAmount ((get_route53_pricing FALLBACK_PRICING "HostedZone" 3).data) =
      some (dec 50 2) ∧
    headMonthly ((get_route53_pricing FALLBACK_PRICING "HostedZone" 3).data) =
      some (dec 15 1) := by
  have hgen : ∀ (d : PricingData) (comp : String) (q : Int),
      headAmount ((get_route53_pricing d comp q).data) =
        some (dget d.Route53 comp (dec 50 2)) ∧
      headMonthly ((get_route53_pricing d comp q).data) =
        some (dget d.Route53 comp (dec 50 2) * (q : ℚ)) := by
    intro d comp q
    constructor <;>
      simp [get_route53_pricing, find_route53_pricing, format_single_price,
            headAmount, headMonthly, pyIn_Hrs_Month]
  have hdget : dget FALLBACK_PRICING.Route53 "HostedZone" (dec 50 2) = dec 50 2 := rfl
  refine ⟨hgen, pyIn_Hrs_Month, ?_, ?_⟩
  · rw [(hgen FALLBACK_PRICING "HostedZone" 3).1, hdget]
  · rw [(hgen FALLBACK_PRICING "HostedZone" 3).2, hdget]
    norm_num [dec, Rat.mkRat_eq_div]

/-- C1 (amended): for the hourly services that are routed through
`format_single_price` (VPC components and ALB), a present table entry yields
a normalized `monthly_cost` equal to `unitPrice * 730 * quantity`.  EC2 (and
RDS) responses carry the unit price but no server-side monthly cost:
t2.micro / US East (N. Virginia) / Linux resolves to unit price 0.0116, and
the hourly rule `unitPrice * 730 * quantity` applied to it gives 8.468. -/
theorem hourly_monthly_normalization :
    (∀ (d : PricingData) (comp r : String) (q : Int) (p : ℚ),
        alookup (dget d.VPC r []) comp = some p →
        headAmount ((get_vpc_pricing d comp r q).data) = some p ∧
        headMonthly ((get_vpc_pricing d comp r q).data) = some (p * 730 * (q : ℚ))) ∧
    (∀ (d : PricingData) (r : String) (q : Int) (p : ℚ),
        alookup d.ALB r = some p →
        headAmount ((get_alb_pricing d r q).data) = some p ∧
        headMonthly ((get_alb_pricing d r q).data) = some (p * 730 * (q : ℚ))) ∧
    pyIn "Hrs" "Hrs" = true ∧
    headAmount (find_ec2_pricing FALLBACK_PRICING "t2.micro" "US East (N. Virginia)" "Linux") =
      some (dec 116 4) ∧
    dec 116 4 * 730 * (1 : ℚ) = dec 8468 3 := by
  refine ⟨fun d comp r q p h => ?_, fun d r q p h => ?_, pyIn_Hrs_Hrs, ?_, ?_⟩
  · have hp : dget (dget d.VPC r []) comp (dec 45 3) = p := dget_of_alookup _ h
    constructor <;>
      simp [get_vpc_pricing, find_vpc_pricing, format_single_price, headAmount,
            headMonthly, pyIn_Hrs_Hrs, hp]
  · have hp : dget d.ALB r (dec 225 4) = p := dget_of_alookup _ h
    constructor <;>
      simp [get_alb_pricing, find_alb_pricing, format_single_price, headAmount,
            headMonthly, pyIn_Hrs_Hrs, hp]
  · decide
  · norm_num [dec, Rat.mkRat_eq_div]

/-- C1 counterexample: at the claim's own example input — a present EC2 entry
(t2.micro, US East, Linux) — the resolved record carries no monthly cost at
all, and `format_single_price` (the cited normalizer) applied to it returns a
record with an empty price list, so no record with
`monthlyCost = unitPrice * 730 * quantity` is produced for EC2. -/
theorem ec2_normalization_drops_prices :
    headMonthly (find_ec2_pricing FALLBACK_PRICING "t2.micro" "US East (N. Virginia)" "Linux")
      = none ∧
    (format_single_price
        (find_ec2_pricing FALLBACK_PRICING "t2.micro" "US East (N. Virginia)" "Linux")
        "EC2" 1).map Product.prices = [[]] := by
  constructor
  · simp [find_ec2_pricing, headMonthly]
  · simp [find_ec2_pricing, format_single_price]

/-- C1 witness. -/
theorem hourly_monthly_normalization_witness :
    alookup (dget FALLBACK_PRICING.VPC "US East (N. Virginia)" []) "NatGateway" =
      some (pyRound 4 (dec 45 3 * dec 10 1)) ∧
    headMonthly ((get_vpc_pricing FALLBACK_PRICING "NatGateway" "US East (N. Virginia)" 2).data)
      = some (pyRound 4 (dec 45 3 * dec 10 1) * 730 * ((2 : Int) : ℚ)) := by
  have h : alookup (dget FALLBACK_PRICING.VPC "US East (N. Virginia)" []) "NatGateway" =
      some (pyRound 4 (dec 45 3 * dec 10 1)) := rfl
  exact ⟨h, (hourly_monthly_normalization.1 FALLBACK_PRICING "NatGateway"
    "US East (N. Virginia)" 2 _ h).2⟩

/-- C2 (amended): in static-table mode, resolution is total (always one
record) and follows the lookup policy on the shipped table: the exact
(region, selector) entry when present, else the default-region
(US East (N. Virginia)) entry when present, else price 0.  The zero-price
record of a double miss carries unit price 0, but `format_single_price` on
such an EC2/RDS record returns a record with an empty price list — no
`monthlyCost == 0` field is produced. -/
theorem resolve_degrades_gracefully :
    (∀ ty r os, (find_ec2_pricing FALLBACK_PRICING ty r os).length = 1) ∧
    (∀ ty r os p, ec2entry FALLBACK_PRICING.EC2 r ty os = some p →
        headAmount (find_ec2_pricing FALLBACK_PRICING ty r os) = some p) ∧
    (∀ ty r os, ec2entry FALLBACK_PRICING.EC2 r ty os = none →
        headAmount (find_ec2_pricing FALLBACK_PRICING ty r os) =
          some ((ec2entry FALLBACK_PRICING.EC2 "US East (N. Virginia)" ty os).getD 0)) ∧
    (∀ ty r e dep, (find_rds_pricing FALLBACK_PRICING ty r e dep).length = 1) ∧
    (∀ ty r e dep p, rdsentry FALLBACK_PRICING.RDS r ty e dep = some p →
        headAmount (find_rds_pricing FALLBACK_PRICING ty r e dep) = some p) ∧
    (∀ ty r e dep, rdsentry FALLBACK_PRICING.RDS r ty e dep = none →
        headAmount (find_rds_pricing FALLBACK_PRICING ty r e dep) =
          some ((rdsentry FALLBACK_PRICING.RDS "US East (N. Virginia)" ty e dep).getD 0)) ∧
    (∀ ty r os (q : Int),
        ec2entry FALLBACK_PRICING.EC2 r ty os = none →
        ec2entry FALLBACK_PRICING.EC2 "US East (N. Virginia)" ty os = none →
        headAmount (find_ec2_pricing FALLBACK_PRICING ty r os) = some 0 ∧
        (format_single_price (find_ec2_pricing FALLBACK_PRICING ty r os) "EC2" q).map
          Product.prices = [[]]) := by
  refine ⟨fun ty r os => rfl, fun ty r os p h => ?_, fun ty r os h => ?_,
          fun ty r e dep => rfl, fun ty r e dep p h => ?_, fun ty r e dep h => ?_,
          fun ty r os q h1 h2 => ⟨?_, ?_⟩⟩
  · have hpos : 0 < p := ec2Full_pos h
    rw [headAmount_find_ec2, h]
    simp [hpos.ne']
  · rw [headAmount_find_ec2, h]
    simp
  · have hpos : 0 < p := rdsFull_pos h
    rw [headAmount_find_rds, h]
    simp [hpos.ne']
  · rw [headAmount_find_rds, h]
    simp
  · rw [headAmount_find_ec2, h1, h2]
    simp
  · simp [find_ec2_pricing, format_single_price]

set_option maxRecDepth 40000 in
/-- C2 counterexample: an unknown selector (instance type `zz.fake`) resolves
to the zero-price record, but normalizing it with `format_single_price` — the
cited normalizer — yields a record with an empty price list, not one with
`monthlyCost == 0`. -/
theorem zero_record_not_normalized :
    headAmount (find_ec2_pricing FALLBACK_PRICING "zz.fake" "US East (N. Virginia)" "Linux") =
      some 0 ∧
    (format_single_price
        (find_ec2_pricing FALLBACK_PRICING "zz.fake" "US East (N. Virginia)" "Linux")
        "EC2" 1).map Product.prices = [[]] := by
  constructor
  · have h2 : ec2entry FALLBACK_PRICING.EC2 "US East (N. Virginia)" "zz.fake" "Linux" =
        none := by decide
    rw [headAmount_find_ec2, h2]
    simp
  · simp [find_ec2_pricing, format_single_price]

set_option maxRecDepth 40000 in
/-- C2 witness. -/
theorem resolve_degrades_gracefully_witness :
    (ec2entry FALLBACK_PRICING.EC2 "US East (N. Virginia)" "t2.micro" "Linux" =
        some (dec 116 4) ∧
      headAmount (find_ec2_pricing FALLBACK_PRICING "t2.micro" "US East (N. Virginia)" "Linux")
        = some (dec 116 4)) ∧
    (ec2entry FALLBACK_PRICING.EC2 "Mars" "t2.micro" "Linux" = none ∧
      headAmount (find_ec2_pricing FALLBACK_PRICING "t2.micro" "Mars" "Linux") =
        some ((ec2entry FALLBACK_PRICING.EC2 "US East (N. Virginia)" "t2.micro"
          "Linux").getD 0)) ∧
    (rdsentry FALLBACK_PRICING.RDS "US East (N. Virginia)" "db.t3.micro" "MySQL" "Single-AZ" =
        some (pyRound 4 (dec 17 3 * dec 10 1)) ∧
      headAmount (find_rds_pricing FALLBACK_PRICING "db.t3.micro" "US East (N. Virginia)"
          "MySQL" "Single-AZ") = some (pyRound 4 (dec 17 3 * dec 10 1))) ∧
    (rdsentry FALLBACK_PRICING.RDS "Mars" "db.t3.micro" "MySQL" "Single-AZ" = none ∧
      headAmount (find_rds_pricing FALLBACK_PRICING "db.t3.micro" "Mars" "MySQL" "Single-AZ")
        = some ((rdsentry FALLBACK_PRICING.RDS "US East (N. Virginia)" "db.t3.micro" "MySQL"
          "Single-AZ").getD 0)) ∧
    (ec2entry FALLBACK_PRICING.EC2 "Mars" "zz.fake" "Linux" = none ∧
      ec2entry FALLBACK_PRICING.EC2 "US East (N. Virginia)" "zz.fake" "Linux" = none ∧
      headAmount (find_ec2_pricing FALLBACK_PRICING "zz.fake" "Mars" "Linux") = some 0 ∧
      (format_single_price (find_ec2_pricing FALLBACK_PRICING "zz.fake" "Mars" "Linux")
        "EC2" 1).map Product.prices = [[]]) := by
  have h1 : ec2entry FALLBACK_PRICING.EC2 "US East (N. Virginia)" "t2.micro" "Linux" =
      some (dec 116 4) := by decide
  have h2 : ec2entry FALLBACK_PRICING.EC2 "Mars" "t2.micro" "Linux" = none := by decide
  have h3 : rdsentry FALLBACK_PRICING.RDS "US East (N. Virginia)" "db.t3.micro" "MySQL"
      "Single-AZ" = some (pyRound 4 (dec 17 3 * dec 10 1)) := rfl
  have h4 : rdsentry FALLBACK_PRICING.RDS "Mars" "db.t3.micro" "MySQL" "Single-AZ" = none := by
    decide
  have h5 : ec2entry FALLBACK_PRICING.EC2 "Mars" "zz.fake" "Linux" = none := by decide
  have h6 : ec2entry FALLBACK_PRICING.EC2 "US East (N. Virginia)" "zz.fake" "Linux" = none := by
    decide
  exact ⟨⟨h1, resolve_degrades_gracefully.2.1 _ _ _ _ h1⟩,
         ⟨h2, resolve_degrades_gracefully.2.2.1 _ _ _ h2⟩,
         ⟨h3, resolve_degrades_gracefully.2.2.2.2.1 _ _ _ _ _ h3⟩,
         ⟨h4, resolve_degrades_gracefully.2.2.2.2.2.1 _ _ _ _ h4⟩,
         ⟨h5, h6, resolve_degrades_gracefully.2.2.2.2.2.2 _ _ _ 1 h5 h6⟩⟩

/-- C9: in static-table mode, the default-region retry of the EC2 and RDS
lookups triggers exactly when the price obtained for the requested region is
0 — also when the (region, type, os/engine/deployment) entry is present with
an actual zero price — so a present zero entry and a missing entry produce
the same result: the US East (N. Virginia) price (0 if that is also
absent). -/
theorem zero_entry_indistinguishable :
    (∀ (d : PricingData) ty r os,
        (ec2entry d.EC2 r ty os = some 0 ∨ ec2entry d.EC2 r ty os = none) →
        headAmount (find_ec2_pricing d ty r os) =
          some ((ec2entry d.EC2 "US East (N. Virginia)" ty os).getD 0)) ∧
    (∀ (d : PricingData) ty r e dep,
        (rdsentry d.RDS r ty e dep = some 0 ∨ rdsentry d.RDS r ty e dep = none) →
        headAmount (find_rds_pricing d ty r e dep) =
          some ((rdsentry d.RDS "US East (N. Virginia)" ty e dep).getD 0)) := by
  constructor
  · rintro d ty r os (h | h) <;> rw [headAmount_find_ec2, h] <;> simp
  · rintro d ty r e dep (h | h) <;> rw [headAmount_find_rds, h] <;> simp

/-- C9 witness. -/
theorem zero_entry_indistinguishable_witness :
    ((ec2entry FALLBACK_PRICING.EC2 "Mars" "t3.micro" "Linux" = some 0 ∨
        ec2entry FALLBACK_PRICING.EC2 "Mars" "t3.micro" "Linux" = none) ∧
      headAmount (find_ec2_pricing FALLBACK_PRICING "t3.micro" "Mars" "Linux") =
        some ((ec2entry FALLBACK_PRICING.EC2 "US East (N. Virginia)" "t3.micro"
          "Linux").getD 0)) ∧
    ((rdsentry FALLBACK_PRICING.RDS "Mars" "db.t3.nano" "MySQL" "Multi-AZ" = some 0 ∨
        rdsentry FALLBACK_PRICING.RDS "Mars" "db.t3.nano" "MySQL" "Multi-AZ" = none) ∧
      headAmount (find_rds_pricing FALLBACK_PRICING "db.t3.nano" "Mars" "MySQL" "Multi-AZ") =
        some ((rdsentry FALLBACK_PRICING.RDS "US East (N. Virginia)" "db.t3.nano" "MySQL"
          "Multi-AZ").getD 0)) := by
  have h1 : ec2entry FALLBACK_PRICING.EC2 "Mars" "t3.micro" "Linux" = none := by decide
  have h2 : rdsentry FALLBACK_PRICING.RDS "Mars" "db.t3.nano" "MySQL" "Multi-AZ" = none := by
    decide
  exact ⟨⟨Or.inr h1, zero_entry_indistinguishable.1 FALLBACK_PRICING _ _ _ (Or.inr h1)⟩,
         ⟨Or.inr h2, zero_entry_indistinguishable.2 FALLBACK_PRICING _ _ _ _ (Or.inr h2)⟩⟩

/-- C8: the rendered report contains exactly one itemized data row per cart
item, the COST BY SERVICE section has exactly one row per distinct service
value, and the grouping keys of both aggregation sections are emitted in
lexicographically sorted order. -/
theorem csv_report_shape : ∀ (cart : List CartItem) (total : ℚ) (now : String),
    (resourceRows cart).length = cart.length ∧
    List.IsInfix (resourceRows cart) (generate_csv_report cart total now) ∧
    (serviceRows cart).length = (cart.map (fun item => item.service)).dedup.length ∧
    List.IsInfix (serviceRows cart) (generate_csv_report cart total now) ∧
    (regionRows cart).length = (cart.map (fun item => item.region)).dedup.length ∧
    List.Sorted (fun a b : String => a ≤ b) (sortedStr (serviceKeys cart)) ∧
    List.Sorted (fun a b : String => a ≤ b) (sortedStr (regionKeys cart)) := by
  intro cart total now
  refine ⟨by simp [resourceRows], ?_, ?_, ?_, ?_, ?_, ?_⟩
  · have h : generate_csv_report cart total now =
        reportHeaderRows cart now ++ resourceRows cart ++
          (costSummaryRows total ++ (serviceRows cart ++ (regionHeaderRows ++
            (regionRows cart ++ reportNotesRows)))) := by
      simp [generate_csv_report, List.append_assoc]
    rw [h]
    exact List.infix_append _ _ _
  · calc (serviceRows cart).length
        = (sortedStr (serviceKeys cart)).length := by simp [serviceRows]
      _ = (serviceKeys cart).length := by
          simp [sortedStr, List.length_insertionSort]
      _ = (cart.map (fun item => item.service)).dedup.length := distinctKeys_length _
  · have h : generate_csv_report cart total now =
        (reportHeaderRows cart now ++ resourceRows cart ++ costSummaryRows total) ++
          serviceRows cart ++ (regionHeaderRows ++ (regionRows cart ++ reportNotesRows)) := by
      simp [generate_csv_report, List.append_assoc]
    rw [h]
    exact List.infix_append _ _ _
  · calc (regionRows cart).length
        = (sortedStr (regionKeys cart)).length := by simp [regionRows]
      _ = (regionKeys cart).length := by
          simp [sortedStr, List.length_insertionSort]
      _ = (cart.map (fun item => item.region)).dedup.length := distinctKeys_length _
  · exact List.sorted_insertionSort _ _
  · exact List.sorted_insertionSort _ _

end AwsCalc
